import Mathlib

set_option linter.unusedVariables false

/-!
Shallow embedding of `src/app/src/applications/settings/settings_app.c`
(ZSWatch settings application): the static settings-menu descriptors, the
change-callback handlers, and the persistence load callback
`settings_load_cb`, together with theorems settling the behavioural claims
about this screen.

External collaborators (display driver, Bluetooth stack, inertial sensor,
persistent store) are modelled as an explicit trace of calls (`ExtCall`);
the mutable program state (the static descriptor arrays and the last
brightness pushed to the display) is threaded explicitly (`AppState`).
Machine `int32_t` arithmetic is modelled on `Int` with explicit reduction
modulo 2^32 (`toInt32`) at each store into an `int32_t` object, and C's
truncating `/` on signed integers is `Int.tdiv`.
-/

namespace ZSWatchSettings

/-- errno constant `EINVAL` (invalid argument), as used by `-EINVAL` in the C. -/
def EINVAL : Int := 22

/-- errno constant `ENOENT` (no such entry), as used by `-ENOENT` in the C. -/
def ENOENT : Int := 2

/-- Zephyr's `BT_ID_DEFAULT` identity, the first argument of `bt_unpair`. -/
def BT_ID_DEFAULT : Int := 0

/-- Reduce an unbounded integer to the value an `int32_t` object would hold
after storing it (two's complement wrap-around at 2^32). -/
def toInt32 (n : Int) : Int := (n + 2147483648) % 4294967296 - 2147483648

/-- One call to an external collaborator, in the order the C code makes them:
the display driver, the settings store, the Bluetooth stack, the IMU, and
`printk` logging. -/
inductive ExtCall where
  | set_brightness (percent : Int)
  | save_one (key : String) (value : Int)
  | aoa_advertise (interval : Int) (window : Int) (enable : Int)
  | set_pairable (pairable : Bool)
  | unpair (id : Int)
  | reset_step_count
  | log (msg : String)
  deriving DecidableEq

/-- The `type` discriminator of `lv_settings_item_t`. -/
inductive lv_settings_type where
  | SLIDER
  | SWITCH
  | BTN
  deriving DecidableEq

/-- The `slider` member of the item payload union. The field name `inital_val`
keeps the source's spelling. -/
structure slider_item where
  name : String
  inital_val : Int
  min_val : Int
  max_val : Int
  deriving DecidableEq

/-- The `sw` (switch) member of the item payload union. -/
structure switch_item where
  name : String
  inital_val : Bool
  deriving DecidableEq

/-- The `btn` (button) member of the item payload union. -/
structure btn_item where
  name : String
  text : String
  deriving DecidableEq

/-- The item payload union, discriminated by the item's kind. -/
inductive item_payload where
  | slider (s : slider_item)
  | sw (s : switch_item)
  | btn (b : btn_item)
  deriving DecidableEq

/-- Identity of a change-callback function pointer stored in a descriptor. -/
inductive change_cb where
  | brightness
  | display_on
  | aoa_enable
  | pairing_enable
  | reset_steps
  | clear_bonded
  deriving DecidableEq

/-- One `lv_settings_item_t` descriptor. -/
structure lv_settings_item_t where
  type : lv_settings_type
  icon : String
  change_callback : Option change_cb
  item : item_payload
  deriving DecidableEq

/-- One `lv_settings_page_t` descriptor (`num_items` is the list length). -/
structure lv_settings_page_t where
  name : String
  items : List lv_settings_item_t
  deriving DecidableEq

/- The LVGL glyph macros are external `#define`d UTF-8 strings; they are
represented here by their macro names, which is faithful up to the (opaque)
byte values of the glyphs. -/

/-- LVGL glyph constant. -/
def LV_SYMBOL_SETTINGS : String := "LV_SYMBOL_SETTINGS"

/-- LVGL glyph constant. -/
def LV_SYMBOL_AUDIO : String := "LV_SYMBOL_AUDIO"

/-- LVGL glyph constant. -/
def LV_SYMBOL_TINT : String := "LV_SYMBOL_TINT"

/-- LVGL glyph constant. -/
def LV_SYMBOL_REFRESH : String := "LV_SYMBOL_REFRESH"

/-- LVGL glyph constant. -/
def LV_SYMBOL_BLUETOOTH : String := "LV_SYMBOL_BLUETOOTH"

/-- LVGL glyph constant. -/
def LV_SYMBOL_BACKSPACE : String := "LV_SYMBOL_BACKSPACE"

/-- LVGL glyph constant. -/
def LV_SYMBOL_SHUFFLE : String := "LV_SYMBOL_SHUFFLE"

/-- LVGL glyph constant. -/
def LV_SYMBOL_TRASH : String := "LV_SYMBOL_TRASH"

/-- The static `general_page_items[]` array, field for field from the source. -/
def general_page_items : List lv_settings_item_t :=
  [ { type := lv_settings_type.SLIDER,
      icon := LV_SYMBOL_SETTINGS,
      change_callback := some change_cb.brightness,
      item := item_payload.slider
        { name := "Brightness", inital_val := 3, min_val := 1, max_val := 10 } },
    { type := lv_settings_type.SWITCH,
      icon := LV_SYMBOL_AUDIO,
      change_callback := none,
      item := item_payload.sw { name := "Vibrate on click", inital_val := true } },
    { type := lv_settings_type.SWITCH,
      icon := LV_SYMBOL_TINT,
      change_callback := some change_cb.display_on,
      item := item_payload.sw { name := "Display always on", inital_val := true } },
    { type := lv_settings_type.BTN,
      icon := LV_SYMBOL_REFRESH,
      change_callback := some change_cb.reset_steps,
      item := item_payload.btn { name := "Reset step counter", text := LV_SYMBOL_REFRESH } } ]

/-- The static `bluetooth_page_items[]` array, field for field from the source. -/
def bluetooth_page_items : List lv_settings_item_t :=
  [ { type := lv_settings_type.SWITCH,
      icon := LV_SYMBOL_BLUETOOTH,
      change_callback := some change_cb.pairing_enable,
      item := item_payload.sw { name := "Pairable", inital_val := false } },
    { type := lv_settings_type.BTN,
      icon := LV_SYMBOL_BACKSPACE,
      change_callback := some change_cb.clear_bonded,
      item := item_payload.btn { name := "Delete all bonded peers", text := LV_SYMBOL_TRASH } },
    { type := lv_settings_type.SWITCH,
      icon := "",
      change_callback := some change_cb.aoa_enable,
      item := item_payload.sw { name := "AoA", inital_val := false } },
    { type := lv_settings_type.SLIDER,
      icon := LV_SYMBOL_SHUFFLE,
      change_callback := none,
      item := item_payload.slider
        { name := "CTE Tx interval", inital_val := 100, min_val := 1, max_val := 10 } } ]

/-- The mutable program state: the two static descriptor arrays (mutated only
by `settings_load_cb`) and the brightness last pushed to the display driver
(`none` while `display_control_set_brightness` has never been called). -/
structure AppState where
  general_page_items : List lv_settings_item_t
  bluetooth_page_items : List lv_settings_item_t
  display_brightness : Option Int
  deriving DecidableEq

/-- The program state as compiled: the static initializers, display untouched. -/
def initialAppState : AppState :=
  { general_page_items := general_page_items,
    bluetooth_page_items := bluetooth_page_items,
    display_brightness := none }

/-- The static `settings_menu[]` array over the current descriptor state. -/
def settings_menu (st : AppState) : List lv_settings_page_t :=
  [ { name := "General", items := st.general_page_items },
    { name := "Bluetooth", items := st.bluetooth_page_items } ]

/-- The union inside `lv_setting_value_t`: `item.slider` (an `int32_t`) and
`item.sw` (a `bool`). Each handler reads only the member matching its item's
kind; the model carries both members. -/
structure lv_setting_item_value where
  slider : Int
  sw : Bool
  deriving DecidableEq

/-- The `lv_setting_value_t` argument of every change callback. -/
structure lv_setting_value_t where
  item : lv_setting_item_value
  deriving DecidableEq

/-- `on_brightness_changed`: pushes `value.item.slider * 10` to the display,
multiplies the field by 10 in place, and saves it under
`"settings/brightness"` — on every invocation; the `final` argument is not
read by the source. -/
def on_brightness_changed (value : lv_setting_value_t) (final : Bool) : List ExtCall :=
  let slider10 : Int := toInt32 (value.item.slider * 10)
  [ ExtCall.set_brightness slider10,
    ExtCall.save_one "settings/brightness" slider10 ]

/-- `on_display_on_changed`: empty body. -/
def on_display_on_changed (value : lv_setting_value_t) (final : Bool) : List ExtCall :=
  []

/-- `on_aoa_enable_changed`: `bleAoaAdvertise(100, 100, 1)` when the switch is
on, `bleAoaAdvertise(100, 100, 0)` when it is off. -/
def on_aoa_enable_changed (value : lv_setting_value_t) (final : Bool) : List ExtCall :=
  if value.item.sw then
    [ExtCall.aoa_advertise 100 100 1]
  else
    [ExtCall.aoa_advertise 100 100 0]

/-- `on_pairing_enable_changed`: `ble_comm_set_pairable(true)` when the switch
is on, `ble_comm_set_pairable(false)` when it is off. -/
def on_pairing_enable_changed (value : lv_setting_value_t) (final : Bool) : List ExtCall :=
  if value.item.sw then
    [ExtCall.set_pairable true]
  else
    [ExtCall.set_pairable false]

/-- `on_clear_bonded_changed`: when `final`, calls
`bt_unpair(BT_ID_DEFAULT, NULL)`; `bt_unpair_result` is the `err` that call
returns, and on a non-zero `err` the handler logs and returns. -/
def on_clear_bonded_changed (value : lv_setting_value_t) (final : Bool)
    (bt_unpair_result : Int) : List ExtCall :=
  if final then
    if bt_unpair_result ≠ 0 then
      [ExtCall.unpair BT_ID_DEFAULT, ExtCall.log "Cannot unpair for default ID"]
    else
      [ExtCall.unpair BT_ID_DEFAULT]
  else
    []

/-- `on_reset_steps_changed`: when `final`, calls `zsw_imu_reset_step_count()`. -/
def on_reset_steps_changed (value : lv_setting_value_t) (final : Bool) : List ExtCall :=
  if final then
    [ExtCall.reset_step_count]
  else
    []

/-- Zephyr's `settings_name_steq(name, key, &next)`: `none` models a zero
return (no match); `some nxt` models a match, where `nxt` is what `*next` is
set to (`none` for `NULL` when `name` equals `key` exactly, `some rest` when
`name` is `key` followed by the separator `/` and `rest`). -/
def settings_name_steq : List Char → List Char → Option (Option (List Char))
  | name, [] =>
    match name with
    | [] => some none
    | c :: rest => if c = '/' then some (some rest) else none
  | [], _ :: _ => none
  | n :: ns, k :: ks => if k = n then settings_name_steq ns ks else none

/-- The key suffix `"brightness"` the load callback matches against. -/
def brightness_key : List Char :=
  ['b', 'r', 'i', 'g', 'h', 't', 'n', 'e', 's', 's']

/-- The outcome of one `read_cb(cb_arg, &bri, sizeof(bri))` call: `rc` is its
return value, and `buf` is what the 4-byte buffer `bri` holds after the call
returns (on failure the C leaves `bri` effectively unconstrained, so `buf` is
a parameter either way). -/
structure read_result where
  rc : Int
  buf : Int
  deriving DecidableEq

/-- The C store `general_page_items[0].item.slider.inital_val = v` on one
descriptor: updates the slider payload's `inital_val` (item 0 is statically a
slider, so the union access is the slider member). -/
def set_slider_inital_val (it : lv_settings_item_t) (v : Int) : lv_settings_item_t :=
  { it with
    item :=
      match it.item with
      | item_payload.slider s => item_payload.slider { s with inital_val := v }
      | p => p }

/-- The effect the load callback applies once name and length matched:
`general_page_items[0].item.slider.inital_val = bri / 10` followed by
`display_control_set_brightness(bri)` — performed whatever `read_cb`
returned, exactly as the C does. -/
def apply_brightness_record (bri : Int) (st : AppState) : AppState :=
  { st with
    general_page_items :=
      st.general_page_items.modifyHead (fun it => set_slider_inital_val it (bri.tdiv 10)),
    display_brightness := some bri }

/-- `settings_load_cb(name, len, read_cb, cb_arg)` over explicit state:
returns the callback's `int` result and the state after the call. The match
guard is `settings_name_steq(name, "brightness", &next) && !next`; inside it,
a wrong `len` returns `-EINVAL` untouched, otherwise the read buffer is
applied to `general_page_items[0]` and the display unconditionally, and the
result is `0` when `read_cb` succeeded (`rc >= 0`) and `rc` otherwise. -/
def settings_load_cb (name : List Char) (len : Nat) (read : read_result)
    (st : AppState) : Int × AppState :=
  match settings_name_steq name brightness_key with
  | some none =>
    if len ≠ 4 then
      (-EINVAL, st)
    else if read.rc ≥ 0 then
      (0, apply_brightness_record read.buf st)
    else
      (read.rc, apply_brightness_record read.buf st)
  | _ => (-ENOENT, st)

/-- Read back `general_page_items[0].item.slider.inital_val` from a state. -/
def brightness_slider_inital_val (st : AppState) : Option Int :=
  match st.general_page_items.head? with
  | some it =>
    match it.item with
    | item_payload.slider s => some s.inital_val
    | _ => none
  | none => none

/-- Zero out the brightness slider's `inital_val` in one descriptor, for
stating frame properties (two descriptors agree on every other field iff
their erasures are equal). -/
def erase_slider_inital_val (it : lv_settings_item_t) : lv_settings_item_t :=
  set_slider_inital_val it 0

/-! ### Helper lemmas -/

/-- Storing a value already in `int32_t` range into an `int32_t` keeps it. -/
theorem toInt32_eq_self (n : Int) (h1 : -2147483648 ≤ n) (h2 : n ≤ 2147483647) :
    toInt32 n = n := by
  unfold toInt32
  omega

/-- `settings_name_steq` on two equal names is an exact match (`*next = NULL`). -/
theorem settings_name_steq_self (key : List Char) :
    settings_name_steq key key = some none := by
  induction key with
  | nil => rfl
  | cons k ks ih => simp [settings_name_steq, ih]

/-- An exact `settings_name_steq` match (`*next = NULL`) forces the name to be
exactly the key. -/
theorem settings_name_steq_exact : ∀ (key name : List Char),
    settings_name_steq name key = some none → name = key
  | [], [], _ => rfl
  | [], c :: rest, h => by
    by_cases hc : c = '/' <;> simp [settings_name_steq, hc] at h
  | _ :: _, [], h => by
    simp [settings_name_steq] at h
  | k :: ks, n :: ns, h => by
    by_cases hk : k = n
    · have h' : settings_name_steq ns ks = some none := by
        simpa [settings_name_steq, hk] using h
      have hrec := settings_name_steq_exact ks ns h'
      simp [hk, hrec]
    · simp [settings_name_steq, hk] at h

/-- Erasing the slider `inital_val` after setting it gives the same item as
erasing it directly: setting touches no other field. -/
theorem erase_set_slider_inital_val (it : lv_settings_item_t) (v : Int) :
    erase_slider_inital_val (set_slider_inital_val it v) = erase_slider_inital_val it := by
  cases it with
  | mk t i cb p => cases p <;> rfl

/-- The head-update performed by the load callback leaves the tail of the item
list unchanged and changes the head at most in the slider's `inital_val`. -/
theorem modifyHead_set_slider_frame (l : List lv_settings_item_t) (v : Int) :
    (l.modifyHead (fun it => set_slider_inital_val it v)).tail = l.tail
    ∧ (l.modifyHead (fun it => set_slider_inital_val it v)).head?.map erase_slider_inital_val
        = l.head?.map erase_slider_inital_val := by
  cases l with
  | nil => exact ⟨rfl, rfl⟩
  | cons x xs =>
    refine ⟨rfl, ?_⟩
    simp [List.modifyHead, erase_set_slider_inital_val]

/-! ### Claims -/

/-- Claim C1, counterexample: a brightness event with slider value 5 and
`final = false` (an intermediate drag update) does produce a save of 50 under
`"settings/brightness"` — refuting "intermediate drag events (final = false)
produce no save". -/
theorem on_brightness_changed_saves_when_not_final :
    ExtCall.save_one "settings/brightness" 50 ∈
      on_brightness_changed ⟨⟨5, false⟩⟩ false := by
  decide

/-- Claim C1 (amended): for every brightness-slider change event with value v
in the slider's declared 1..10 range, the handler calls
`display.set_brightness(v*10)` and saves v*10 under `"settings/brightness"`
on EVERY event, whatever the `final` flag is — intermediate drag events save
too. -/
theorem on_brightness_changed_effects (v : Int) (sw final : Bool)
    (h1 : 1 ≤ v) (h2 : v ≤ 10) :
    on_brightness_changed ⟨⟨v, sw⟩⟩ final =
      [ExtCall.set_brightness (v * 10),
       ExtCall.save_one "settings/brightness" (v * 10)] := by
  have h : toInt32 (v * 10) = v * 10 := toInt32_eq_self _ (by omega) (by omega)
  simp [on_brightness_changed, h]

/-- Witness for the amended C1 theorem, at v = 7 on a non-final drag event. -/
theorem on_brightness_changed_effects_witness :
    on_brightness_changed ⟨⟨7, false⟩⟩ false =
      [ExtCall.set_brightness 70, ExtCall.save_one "settings/brightness" 70] :=
  on_brightness_changed_effects 7 false false (by decide) (by decide)

/-- Claim C3: round trip of brightness persistence. Committing slider value v
saves s = v*10; a boot-time load of the `"brightness"` record with length 4
and a successful read of s returns 0, pushes s to the display, and rebuilds
the slider descriptor with `inital_val = s / 10 = v`. -/
theorem brightness_round_trip (v : Int) (h1 : 1 ≤ v) (h2 : v ≤ 10) :
    (ExtCall.save_one "settings/brightness" (v * 10) ∈
       on_brightness_changed ⟨⟨v, false⟩⟩ true)
    ∧ (settings_load_cb brightness_key 4 ⟨0, v * 10⟩ initialAppState).1 = 0
    ∧ (settings_load_cb brightness_key 4 ⟨0, v * 10⟩ initialAppState).2.display_brightness
        = some (v * 10)
    ∧ brightness_slider_inital_val
        (settings_load_cb brightness_key 4 ⟨0, v * 10⟩ initialAppState).2 = some v := by
  have ht : toInt32 (v * 10) = v * 10 := toInt32_eq_self _ (by omega) (by omega)
  have hd : (v * 10).tdiv 10 = v := Int.mul_tdiv_cancel v (by norm_num)
  refine ⟨?_, ?_, ?_, ?_⟩
  · simp [on_brightness_changed, ht]
  · simp [settings_load_cb, settings_name_steq_self]
  · simp [settings_load_cb, settings_name_steq_self, apply_brightness_record]
  · simp [settings_load_cb, settings_name_steq_self, apply_brightness_record,
      brightness_slider_inital_val, initialAppState, general_page_items,
      set_slider_inital_val, hd]

/-- Witness for C3 at the spec's own scenario: v = 7, store value 70. -/
theorem brightness_round_trip_witness :
    (ExtCall.save_one "settings/brightness" 70 ∈
       on_brightness_changed ⟨⟨7, false⟩⟩ true)
    ∧ (settings_load_cb brightness_key 4 ⟨0, 70⟩ initialAppState).1 = 0
    ∧ (settings_load_cb brightness_key 4 ⟨0, 70⟩ initialAppState).2.display_brightness
        = some 70
    ∧ brightness_slider_inital_val
        (settings_load_cb brightness_key 4 ⟨0, 70⟩ initialAppState).2 = some 7 :=
  brightness_round_trip 7 (by decide) (by decide)

/-- Claim C4: a `"brightness"` record whose length is not 4 bytes makes the
load callback return `-EINVAL` with the whole state (descriptors and display)
untouched. -/
theorem settings_load_cb_wrong_length (len : Nat) (read : read_result)
    (st : AppState) (h : len ≠ 4) :
    settings_load_cb brightness_key len read st = (-EINVAL, st) := by
  simp [settings_load_cb, settings_name_steq_self, h]

/-- Witness for C4 at length 3. -/
theorem settings_load_cb_wrong_length_witness :
    settings_load_cb brightness_key 3 ⟨0, 0⟩ initialAppState
      = (-EINVAL, initialAppState) :=
  settings_load_cb_wrong_length 3 ⟨0, 0⟩ initialAppState (by decide)

/-- Claim C5: any record name other than exactly `"brightness"` (including
names that merely start with it, like `"brightness/x"`) makes the load
callback return `-ENOENT` with the whole state untouched. -/
theorem settings_load_cb_unknown_name (name : List Char) (len : Nat)
    (read : read_result) (st : AppState) (h : name ≠ brightness_key) :
    settings_load_cb name len read st = (-ENOENT, st) := by
  unfold settings_load_cb
  cases hs : settings_name_steq name brightness_key with
  | none => rfl
  | some nxt =>
    cases nxt with
    | none => exact absurd (settings_name_steq_exact brightness_key name hs) h
    | some rest => rfl

/-- Witness for C5 at the unknown name `"contrast"`. -/
theorem settings_load_cb_unknown_name_witness :
    settings_load_cb ['c', 'o', 'n', 't', 'r', 'a', 's', 't'] 4 ⟨0, 0⟩ initialAppState
      = (-ENOENT, initialAppState) :=
  settings_load_cb_unknown_name _ 4 ⟨0, 0⟩ initialAppState (by decide)

/-- Claim C2 (code bug in the source): loading the `"brightness"` record with
correct length 4 when the store's read callback FAILS (here rc = -5, the
4-byte buffer left holding 0) does report the failure back (the callback
returns -5), but — against the stated failure semantics — it still overwrites
the slider descriptor's `inital_val` (the compiled-in default 3 becomes 0)
and still pushes the buffer contents to the display, because the C applies
`bri` before testing `rc`. -/
theorem settings_load_cb_failed_read_still_mutates :
    (settings_load_cb brightness_key 4 ⟨-5, 0⟩ initialAppState).1 = -5
    ∧ brightness_slider_inital_val
        (settings_load_cb brightness_key 4 ⟨-5, 0⟩ initialAppState).2 = some 0
    ∧ (settings_load_cb brightness_key 4 ⟨-5, 0⟩ initialAppState).2.display_brightness
        = some 0
    ∧ brightness_slider_inital_val initialAppState = some 3 := by
  decide

/-- Claim C6: the clear-bonded-peers handler calls `bt_unpair(BT_ID_DEFAULT)`
exactly once when `final = true` and never when `final = false`; when the
unpair call returns a non-zero error, the handler logs the failure and does
nothing further. -/
theorem on_clear_bonded_changed_spec (value : lv_setting_value_t) (final : Bool)
    (err : Int) :
    ((on_clear_bonded_changed value final err).count (ExtCall.unpair BT_ID_DEFAULT)
       = if final then 1 else 0)
    ∧ on_clear_bonded_changed value false err = []
    ∧ (err ≠ 0 → on_clear_bonded_changed value true err =
        [ExtCall.unpair BT_ID_DEFAULT, ExtCall.log "Cannot unpair for default ID"]) := by
  refine ⟨?_, rfl, ?_⟩
  · cases final <;> by_cases he : err = 0 <;>
      simp [on_clear_bonded_changed, he]
  · intro he
    simp [on_clear_bonded_changed, he]

/-- Witness for C6 at a press (`final = true`) with unpair failing (err = -12). -/
theorem on_clear_bonded_changed_spec_witness :
    ((on_clear_bonded_changed ⟨⟨0, false⟩⟩ true (-12)).count (ExtCall.unpair BT_ID_DEFAULT)
       = 1)
    ∧ on_clear_bonded_changed ⟨⟨0, false⟩⟩ false (-12) = []
    ∧ on_clear_bonded_changed ⟨⟨0, false⟩⟩ true (-12) =
        [ExtCall.unpair BT_ID_DEFAULT, ExtCall.log "Cannot unpair for default ID"] :=
  ⟨(on_clear_bonded_changed_spec ⟨⟨0, false⟩⟩ true (-12)).1,
   (on_clear_bonded_changed_spec ⟨⟨0, false⟩⟩ false (-12)).2.1,
   (on_clear_bonded_changed_spec ⟨⟨0, false⟩⟩ true (-12)).2.2 (by decide)⟩

/-- Claim C7: the reset-step-counter handler calls `zsw_imu_reset_step_count()`
exactly when the event's `final` flag is true, and does nothing at all when it
is false. -/
theorem on_reset_steps_changed_spec (value : lv_setting_value_t) (final : Bool) :
    (ExtCall.reset_step_count ∈ on_reset_steps_changed value final ↔ final = true)
    ∧ on_reset_steps_changed value false = [] := by
  cases final <;> simp [on_reset_steps_changed]

/-- Claim C8: every AoA-switch change event calls `bleAoaAdvertise` with
interval 100, window 100, and enable 1 when the switch is on and 0 when it is
off — and that single call is the handler's entire effect, so no other
arguments are ever passed. -/
theorem on_aoa_enable_changed_spec (value : lv_setting_value_t) (final : Bool) :
    on_aoa_enable_changed value final =
      [ExtCall.aoa_advertise 100 100 (if value.item.sw then 1 else 0)] := by
  cases h : value.item.sw <;> simp [on_aoa_enable_changed, h]

/-- Claim C9: every Pairable-switch change event calls
`ble_comm_set_pairable` with exactly the switch's new boolean value, and the
handler never performs any persistence save. -/
theorem on_pairing_enable_changed_spec (value : lv_setting_value_t) (final : Bool) :
    on_pairing_enable_changed value final = [ExtCall.set_pairable value.item.sw]
    ∧ ∀ (k : String) (x : Int),
        ExtCall.save_one k x ∉ on_pairing_enable_changed value final := by
  constructor
  · cases h : value.item.sw <;> simp [on_pairing_enable_changed, h]
  · intro k x
    cases h : value.item.sw <;> simp [on_pairing_enable_changed, h]

/-- Claim C10: frame property of the load callback — for every name, length,
and read outcome, the Bluetooth page items are untouched, every general page
item after the first is untouched, and the first general page item can differ
at most in its slider `inital_val` (its erasure is preserved); so every other
field of every descriptor, including bounds, labels, icons, callbacks and the
other items' initial values, is unchanged. -/
theorem settings_load_cb_frame (name : List Char) (len : Nat)
    (read : read_result) (st : AppState) :
    ((settings_load_cb name len read st).2.bluetooth_page_items
        = st.bluetooth_page_items)
    ∧ ((settings_load_cb name len read st).2.general_page_items.tail
        = st.general_page_items.tail)
    ∧ ((settings_load_cb name len read st).2.general_page_items.head?.map
          erase_slider_inital_val
        = st.general_page_items.head?.map erase_slider_inital_val) := by
  unfold settings_load_cb
  cases settings_name_steq name brightness_key with
  | none => exact ⟨rfl, rfl, rfl⟩
  | some nxt =>
    cases nxt with
    | some rest => exact ⟨rfl, rfl, rfl⟩
    | none =>
      by_cases hlen : len ≠ 4
      · rw [if_pos hlen]
        exact ⟨rfl, rfl, rfl⟩
      · rw [if_neg hlen]
        by_cases hrc : read.rc ≥ 0
        · rw [if_pos hrc]
          exact ⟨rfl, (modifyHead_set_slider_frame st.general_page_items _).1,
                 (modifyHead_set_slider_frame st.general_page_items _).2⟩
        · rw [if_neg hrc]
          exact ⟨rfl, (modifyHead_set_slider_frame st.general_page_items _).1,
                 (modifyHead_set_slider_frame st.general_page_items _).2⟩

end ZSWatchSettings
